import Mathlib

/-!
# SafeHer backend — Alert Dispatch & Matching Engine, shallow embedding

A Lean model of the alert-dispatch core of the SafeHer backend
(Express/Mongoose). Each definition mirrors one JavaScript function:

* `src/models/Volunteer.js` — `updateStats`, `checkBadges`;
* `src/models/Alert.js` — `calculateResponseTime`, `calculateTotalDuration`,
  `addTimelineEntry`;
* the alert controller — `createAlert`, `acceptAlert`, `cancelAlert`,
  `resolveAlert`, `submitFeedback`, `updateAlertLocation`;
* `src/services/notificationService.js` — `cleanPhone`,
  `notifyEmergencyContacts`;
* `src/server.js` — `cleanupAlerts`;
* `src/config/config.js` — the alert configuration constants.

Modelling conventions: JavaScript numbers are `Rat` (so the running-average
divisions are exact), timestamps are `Int` milliseconds since the epoch,
Mongo object ids are `Nat`, and fallible lookups are `Option`.  The Haversine
`calculateDistance` is transcendental, so the matcher is parameterised by an
arbitrary distance function `dist : Rat → Rat → Rat → Rat → Rat`
(lat1 lon1 lat2 lon2); no claim depends on its numeric values.  The SMS
gateway outcome is a function `gw : String → Bool` from the (cleaned) phone
number to success, abstracting the Fast2SMS HTTP call.
-/

namespace SafeHer

/-- `status` enum of the Alert schema. -/
inductive AlertStatus
  | pending | active | responding | resolved | cancelled | expired
deriving DecidableEq

/-- Per-entry status of `notifiedVolunteers` in the Alert schema. -/
inductive NotifStatus
  | notified | accepted | declined | no_response
deriving DecidableEq

/-- `method` enum of `notifiedContacts` in the Alert schema. -/
inductive ContactMethod
  | sms | call | push | email
deriving DecidableEq

/-- Delivery status of `notifiedContacts`.  The schema enum is
`sent|delivered|failed`; `pending` is additionally written by the
`createAlert` fallback branch, so it is kept in the model. -/
inductive ContactSendStatus
  | sent | delivered | failed | pending
deriving DecidableEq

/-- Volunteer `status` enum. -/
inductive VolStatus
  | pending | active | inactive | suspended
deriving DecidableEq

/-- One entry of the `badges` array of the Volunteer schema. -/
structure Badge where
  name : String
  icon : String
  earnedAt : Int
deriving DecidableEq

/-- The `stats` subdocument of the Volunteer schema. -/
structure Stats where
  totalResponses : Nat
  successfulAssists : Nat
  declinedAlerts : Nat
  avgResponseTime : Rat
  rating : Rat
  totalRatings : Nat
deriving DecidableEq

/-- A volunteer document (the fields the dispatch engine reads).
`currentLocation` is `none` when the volunteer has no location fix;
coordinates are stored GeoJSON-style as `(longitude, latitude)`. -/
structure Volunteer where
  id : Nat
  userId : Nat
  isVerified : Bool
  status : VolStatus
  isOnDuty : Bool
  currentLocation : Option (Rat × Rat)
  stats : Stats
  badges : List Badge
deriving DecidableEq

/-- JavaScript truthiness of an optional numeric field
(`undefined`/`null` and `0` are falsy). -/
def jsTruthyNum : Option Rat → Bool
  | none => false
  | some x => x ≠ 0

/-- `this.badges.find(b => b.name === n)` used as a boolean. -/
def hasBadge (v : Volunteer) (n : String) : Bool :=
  v.badges.any fun b => b.name = n

/-- `Volunteer.methods.updateStats(responseTime, wasSuccessful, rating)`
(`src/models/Volunteer.js`): increment `totalResponses` (and
`successfulAssists` on success), fold `responseTime` into the running
average, and — only when `rating` is truthy — fold `rating` into the
running rating average and bump `totalRatings`. -/
def updateStats (v : Volunteer) (responseTime : Rat) (wasSuccessful : Bool)
    (rating : Option Rat) : Volunteer :=
  let n : Nat := v.stats.totalResponses + 1
  let assists : Nat :=
    if wasSuccessful then v.stats.successfulAssists + 1 else v.stats.successfulAssists
  let totalTime : Rat := v.stats.avgResponseTime * ((n : Rat) - 1) + responseTime
  let avg : Rat := totalTime / (n : Rat)
  let (newRating, newTotalRatings) :=
    match rating with
    | some r =>
        if r ≠ 0 then
          let totalRating : Rat := v.stats.rating * (v.stats.totalRatings : Rat) + r
          (totalRating / ((v.stats.totalRatings + 1 : Nat) : Rat), v.stats.totalRatings + 1)
        else (v.stats.rating, v.stats.totalRatings)
    | none => (v.stats.rating, v.stats.totalRatings)
  { v with stats :=
    { totalResponses := n
      successfulAssists := assists
      declinedAlerts := v.stats.declinedAlerts
      avgResponseTime := avg
      rating := newRating
      totalRatings := newTotalRatings } }

/-- The `badgesToAward` array built by `Volunteer.methods.checkBadges`
(`src/models/Volunteer.js`): five sequential conditional pushes —
First Responder (≥1 response), 10/25/50 Assists, and Quick Responder
(average response time < 180 s and ≥ 5 responses), each guarded by the
absence of an already-earned badge of the same name. -/
def badgesToAward (v : Volunteer) (now : Int) : List Badge :=
  (if 1 ≤ v.stats.totalResponses ∧ ¬ hasBadge v "First Responder" then
    [⟨"First Responder", "🏅", now⟩] else [])
  ++ (if 10 ≤ v.stats.successfulAssists ∧ ¬ hasBadge v "10 Assists" then
    [⟨"10 Assists", "⭐", now⟩] else [])
  ++ (if 25 ≤ v.stats.successfulAssists ∧ ¬ hasBadge v "25 Assists" then
    [⟨"25 Assists", "🌟", now⟩] else [])
  ++ (if 50 ≤ v.stats.successfulAssists ∧ ¬ hasBadge v "50 Assists" then
    [⟨"50 Assists", "🏆", now⟩] else [])
  ++ (if (v.stats.avgResponseTime < 180 ∧ 5 ≤ v.stats.totalResponses) ∧
        ¬ hasBadge v "Quick Responder" then
    [⟨"Quick Responder", "⚡", now⟩] else [])

/-- `Volunteer.methods.checkBadges`: push the newly qualified badges (if
any) onto `badges` and return them. -/
def checkBadges (v : Volunteer) (now : Int) : Volunteer × List Badge :=
  let toAward := badgesToAward v now
  if 0 < toAward.length then
    ({ v with badges := v.badges ++ toAward }, toAward)
  else (v, toAward)

/-- One entry of the `timeline` array of the Alert schema. -/
structure TimelineEntry where
  action : String
  description : String
  performedBy : Nat
  timestamp : Int
deriving DecidableEq

/-- One entry of `notifiedVolunteers` (Alert schema). -/
structure NotifiedVolunteer where
  volunteer : Nat
  notifiedAt : Int
  distance : Option Rat
  status : NotifStatus
deriving DecidableEq

/-- The `respondingVolunteer` subdocument (Alert schema). -/
structure RespondingVolunteer where
  volunteer : Nat
  acceptedAt : Int
  distance : Option Rat
deriving DecidableEq

/-- One entry of `notifiedContacts` (Alert schema). -/
structure NotifiedContact where
  contact : Nat
  notifiedAt : Int
  method : ContactMethod
  status : ContactSendStatus
deriving DecidableEq

/-- The `resolution` nested object of the Alert schema.  Mongoose
initialises a nested object to `{}`, so every field is optional here and
`Alert.resolution` is always present. -/
structure Resolution where
  resolvedBy : Option Nat
  resolvedAt : Option Int
  notes : Option String
  rating : Option Rat
  feedback : Option String
deriving DecidableEq

/-- The empty `resolution` object. -/
def Resolution.empty : Resolution := ⟨none, none, none, none, none⟩

/-- The `location` field of an alert: GeoJSON `(longitude, latitude)`
coordinates plus optional address and update timestamp. -/
structure GeoPoint where
  coordinates : Rat × Rat
  address : Option String
  updatedAt : Option Int
deriving DecidableEq

/-- One entry of `locationHistory` (Alert schema). -/
structure LocationSample where
  coordinates : Rat × Rat
  timestamp : Int
deriving DecidableEq

/-- An alert document (`src/models/Alert.js`), restricted to the fields
the dispatch engine reads or writes. -/
structure Alert where
  user : Nat
  location : GeoPoint
  locationHistory : List LocationSample
  status : AlertStatus
  priority : String
  type : String
  message : Option String
  notifiedVolunteers : List NotifiedVolunteer
  respondingVolunteer : Option RespondingVolunteer
  notifiedContacts : List NotifiedContact
  timeline : List TimelineEntry
  resolution : Resolution
  responseTime : Option Int
  totalDuration : Option Int
  createdAt : Int
deriving DecidableEq

/-- `Alert.methods.addTimelineEntry(action, description, performedBy)`
(`src/models/Alert.js`): push one entry onto the append-only timeline. -/
def addTimelineEntry (a : Alert) (action description : String)
    (performedBy : Nat) (now : Int) : Alert :=
  { a with timeline := a.timeline ++ [⟨action, description, performedBy, now⟩] }

/-- `Alert.methods.calculateResponseTime` (`src/models/Alert.js`):
`responseTime = floor((acceptedAt - createdAt) / 1000)` seconds, only when
a responding volunteer (with its `acceptedAt`) is present. -/
def calculateResponseTime (a : Alert) : Alert :=
  match a.respondingVolunteer with
  | some rv => { a with responseTime := some (Int.fdiv (rv.acceptedAt - a.createdAt) 1000) }
  | none => a

/-- `Alert.methods.calculateTotalDuration` (`src/models/Alert.js`):
`totalDuration = floor((resolvedAt - createdAt) / 1000)` seconds, only when
`resolution.resolvedAt` is present. -/
def calculateTotalDuration (a : Alert) : Alert :=
  match a.resolution.resolvedAt with
  | some t => { a with totalDuration := some (Int.fdiv (t - a.createdAt) 1000) }
  | none => a

/-- The authenticated requester (`req.user`): id, display name and role
string (`user`/`volunteer`/`admin`). -/
structure UserCtx where
  id : Nat
  name : String
  role : String
deriving DecidableEq

/-- HTTP outcome of a controller, by status code: `ok` (2xx),
`badRequest` (400 — the controller uses it both for validation failures
and for state conflicts), `forbidden` (403), `notFound` (404). -/
inductive ApiStatus
  | ok | badRequest | forbidden | notFound
deriving DecidableEq

/-- Mark the first `notifiedVolunteers` entry of the given volunteer as
`accepted` (the controller mutates the entry returned by `find`). -/
def markAcceptedEntry : List NotifiedVolunteer → Nat → List NotifiedVolunteer
  | [], _ => []
  | e :: rest, vid =>
      if e.volunteer = vid then { e with status := NotifStatus.accepted } :: rest
      else e :: markAcceptedEntry rest vid

/-- `acceptAlert` (alert controller): reject with 400 when the alert is no
longer `active`; 403 when the caller has no volunteer profile (`vol? =
none`) or was not notified; otherwise set status `responding`, record the
responding volunteer with accepted-at timestamp and the notified entry's
distance, compute the response time, mark the entry `accepted` and append
the timeline entry.  `vol?` is the result of
`Volunteer.findOne({user: caller.id})`. -/
def acceptAlert (alert : Alert) (caller : UserCtx) (vol? : Option Volunteer)
    (now : Int) : ApiStatus × Alert :=
  if alert.status ≠ AlertStatus.active then (ApiStatus.badRequest, alert)
  else
    match vol? with
    | none => (ApiStatus.forbidden, alert)
    | some vol =>
      match alert.notifiedVolunteers.find? (fun nv => nv.volunteer = vol.id) with
      | none => (ApiStatus.forbidden, alert)
      | some entry =>
        let a₁ : Alert :=
          { alert with
            status := AlertStatus.responding
            respondingVolunteer := some ⟨vol.id, now, entry.distance⟩
            notifiedVolunteers := markAcceptedEntry alert.notifiedVolunteers vol.id }
        let a₂ := calculateResponseTime a₁
        let a₃ := addTimelineEntry a₂ "accepted"
          ("Volunteer " ++ caller.name ++ " accepted the alert") caller.id now
        (ApiStatus.ok, a₃)

/-- `cancelAlert` (alert controller): 403 unless the caller owns the alert;
400 when the status is already `resolved` or `cancelled` (note: an
`expired` alert passes this check); otherwise set status `cancelled` and
append the timeline entry. -/
def cancelAlert (alert : Alert) (caller : UserCtx) (now : Int) : ApiStatus × Alert :=
  if alert.user ≠ caller.id then (ApiStatus.forbidden, alert)
  else if alert.status = AlertStatus.resolved ∨ alert.status = AlertStatus.cancelled then
    (ApiStatus.badRequest, alert)
  else
    (ApiStatus.ok,
      addTimelineEntry { alert with status := AlertStatus.cancelled }
        "cancelled" "Alert cancelled by user" caller.id now)

/-- Request body of `resolveAlert`. -/
structure ResolveBody where
  notes : Option String
  rating : Option Rat
  feedback : Option String
deriving DecidableEq

/-- `resolveAlert` (alert controller): 403 unless the caller is the owner,
the responding volunteer, or an admin; otherwise — with **no** check of the
current status — set status `resolved`, fill the resolution block, compute
the total duration and append the timeline entry; when the resolver is the
responding volunteer, run `updateStats` (success, with the alert's response
time and the optional rating) followed by `checkBadges`.  `vol?` is the
caller's volunteer profile.  `alert.responseTime` is always set once a
responding volunteer exists (`acceptAlert` computes it); `getD 0` covers
the unreachable unset case. -/
def resolveAlert (alert : Alert) (caller : UserCtx) (vol? : Option Volunteer)
    (body : ResolveBody) (now : Int) : ApiStatus × Alert × Option Volunteer :=
  let isOwner : Bool := alert.user = caller.id
  let isRespondingVolunteer : Bool :=
    match vol?, alert.respondingVolunteer with
    | some v, some rv => rv.volunteer = v.id
    | _, _ => false
  if ¬ isOwner ∧ ¬ isRespondingVolunteer ∧ caller.role ≠ "admin" then
    (ApiStatus.forbidden, alert, vol?)
  else
    let a₁ : Alert :=
      { alert with
        status := AlertStatus.resolved
        resolution := ⟨some caller.id, some now, body.notes, body.rating, body.feedback⟩ }
    let a₂ := calculateTotalDuration a₁
    let a₃ := addTimelineEntry a₂ "resolved" "Alert resolved" caller.id now
    let vol' :=
      if isRespondingVolunteer then
        vol?.map fun v =>
          (checkBadges (updateStats v ((alert.responseTime.getD 0 : Int) : Rat) true body.rating) now).1
      else vol?
    (ApiStatus.ok, a₃, vol')

/-- `submitFeedback` (alert controller): 403 unless the caller owns the
alert; 400 unless the status is `resolved`; 400 when the rating is falsy or
outside 1–5; otherwise write rating and feedback into the resolution and —
when a responding volunteer is recorded and found — fold the rating into
that volunteer's running rating average, bump `totalRatings` and re-run
`checkBadges`.  `respVol?` is the store lookup of
`alert.respondingVolunteer.volunteer`. -/
def submitFeedback (alert : Alert) (caller : UserCtx) (rating? : Option Rat)
    (feedback? : Option String) (respVol? : Option Volunteer) (now : Int) :
    ApiStatus × Alert × Option Volunteer :=
  if alert.user ≠ caller.id then (ApiStatus.forbidden, alert, respVol?)
  else if alert.status ≠ AlertStatus.resolved then (ApiStatus.badRequest, alert, respVol?)
  else if ¬ jsTruthyNum rating? ∨ rating?.getD 0 < 1 ∨ 5 < rating?.getD 0 then
    (ApiStatus.badRequest, alert, respVol?)
  else
    let r := rating?.getD 0
    let alert' : Alert :=
      { alert with resolution :=
        { alert.resolution with rating := some r, feedback := some (feedback?.getD "") } }
    let vol' :=
      if alert.respondingVolunteer.isSome then
        respVol?.map fun v =>
          let totalRating : Rat := v.stats.rating * (v.stats.totalRatings : Rat) + r
          let tr : Nat := v.stats.totalRatings + 1
          let v₁ := { v with stats :=
            { v.stats with totalRatings := tr, rating := totalRating / (tr : Rat) } }
          (checkBadges v₁ now).1
      else respVol?
    (ApiStatus.ok, alert', vol')

/-- `updateAlertLocation` (alert controller): 403 unless the caller owns
the alert; 400 when the status is already `resolved` or `cancelled` (an
`expired` alert passes); otherwise replace the current location (keeping
the stored address) and append to the location history. -/
def updateAlertLocation (alert : Alert) (caller : UserCtx)
    (latitude longitude : Rat) (now : Int) : ApiStatus × Alert :=
  if alert.user ≠ caller.id then (ApiStatus.forbidden, alert)
  else if alert.status = AlertStatus.resolved ∨ alert.status = AlertStatus.cancelled then
    (ApiStatus.badRequest, alert)
  else
    (ApiStatus.ok,
      { alert with
        location := ⟨(longitude, latitude), alert.location.address, some now⟩
        locationHistory := alert.locationHistory ++ [⟨(longitude, latitude), now⟩] })

/-- `config.alert.searchRadius` (`src/config/config.js`): radius in
kilometres for the nearby-volunteer query. -/
def searchRadius : Rat := 5

/-- `config.alert.maxVolunteersToNotify` (`src/config/config.js`). -/
def maxVolunteersToNotify : Nat := 10

/-- Eligibility filter of both volunteer queries in `createAlert`:
`isVerified: true, status: 'active', isOnDuty: true`. -/
def isEligible (v : Volunteer) : Bool :=
  v.isVerified && v.status = VolStatus.active && v.isOnDuty

/-- Insert a `(volunteer, distance)` pair into a distance-sorted list. -/
def insertByDist (p : Volunteer × Rat) : List (Volunteer × Rat) → List (Volunteer × Rat)
  | [] => [p]
  | q :: rest => if p.2 ≤ q.2 then p :: q :: rest else q :: insertByDist p rest

/-- Sort `(volunteer, distance)` pairs ascending by distance. -/
def sortByDist : List (Volunteer × Rat) → List (Volunteer × Rat)
  | [] => []
  | p :: rest => insertByDist p (sortByDist rest)

/-- The Mongo `$near` query of `createAlert`, per the store contract
(spec §6): eligible volunteers whose reported location lies within
`radiusMeters` of the alert, paired with their distance and ordered
ascending by distance.  Volunteers without a location fix never match a
geospatial query.  `dist lat1 lon1 lat2 lon2` abstracts the Haversine
`calculateDistance`. -/
def geoNearPairs (dist : Rat → Rat → Rat → Rat → Rat) (lat lon radiusMeters : Rat)
    (vols : List Volunteer) : List (Volunteer × Rat) :=
  sortByDist <| vols.filterMap fun v =>
    match v.currentLocation with
    | some c =>
        if isEligible v ∧ dist lat lon c.2 c.1 ≤ radiusMeters then
          some (v, dist lat lon c.2 c.1)
        else none
    | none => none

/-- Lines 38–71 of the alert controller: try the geospatial query
(radius `searchRadius` km, limit `maxVolunteersToNotify`); if it throws
(`geoOk = false`, caught by the `try`) or returns no volunteer, fall back
to *all* eligible volunteers without a distance filter, with the same
limit. -/
def findNearbyVolunteers (dist : Rat → Rat → Rat → Rat → Rat)
    (vols : List Volunteer) (geoOk : Bool) (lat lon : Rat) : List Volunteer :=
  let nearby : List Volunteer :=
    if geoOk then
      ((geoNearPairs dist lat lon (searchRadius * 1000) vols).take
        maxVolunteersToNotify).map Prod.fst
    else []
  if nearby.length = 0 then
    (vols.filter isEligible).take maxVolunteersToNotify
  else nearby

/-- Lines 74–85 of the alert controller: build the `notifiedVolunteers`
entries; the distance is computed from the coordinates the volunteer
reports (`currentLocation?.coordinates`), or left `null` when absent. -/
def mkNotifiedVolunteers (dist : Rat → Rat → Rat → Rat → Rat) (lat lon : Rat)
    (vols : List Volunteer) (now : Int) : List NotifiedVolunteer :=
  vols.map fun v =>
    { volunteer := v.id
      notifiedAt := now
      distance :=
        match v.currentLocation with
        | some c => some (dist lat lon c.2 c.1)
        | none => none
      status := NotifStatus.notified }

/-- An emergency-contact document (`EmergencyContact` schema), restricted
to the fields the dispatcher reads. -/
structure EmergencyContact where
  id : Nat
  user : Nat
  name : String
  phone : String
  isPrimary : Bool
  isActive : Bool
deriving DecidableEq

/-- `cleanPhone` (`src/services/notificationService.js`): strip
spaces/dashes/parentheses, then drop a `+91` prefix, then a `91` prefix of
a 12-digit number, then a leading `0`. -/
def cleanPhone (phone : String) : String :=
  let cleaned : String :=
    (phone.toList.filter fun c => c ≠ ' ' ∧ c ≠ '-' ∧ c ≠ '(' ∧ c ≠ ')').asString
  let c₁ := if cleaned.startsWith "+91" then cleaned.drop 3 else cleaned
  let c₂ := if c₁.startsWith "91" ∧ c₁.length = 12 then c₁.drop 2 else c₁
  if c₂.startsWith "0" then c₂.drop 1 else c₂

/-- The Google-Maps live-location link built by `notifyEmergencyContacts`
from the alert's `[longitude, latitude]` coordinates. -/
def locationLink (a : Alert) : String :=
  "https://www.google.com/maps?q=" ++ toString a.location.coordinates.2 ++ ","
    ++ toString a.location.coordinates.1

/-- The SMS text of `notifyEmergencyContacts`
(`src/services/notificationService.js`). -/
def smsMessage (userName : String) (a : Alert) : String :=
  "EMERGENCY! " ++ userName ++ " triggered SOS on SafeHer and needs help. " ++
    "Location: " ++ locationLink a

/-- One element of the result array of `notifyEmergencyContacts`. -/
structure NotifyResult where
  contactId : Nat
  method : ContactMethod
  status : ContactSendStatus
deriving DecidableEq

/-- `notifyEmergencyContacts` (`src/services/notificationService.js`): for
each contact, attempt one SMS (`sendSMS`, whose success is `gw` applied to
the cleaned phone number) and record `sent` or `failed`; each attempt is
its own `try`/`catch`, so one failure never stops the loop.  No voice call
is placed by this service — every result is an `sms` result. -/
def notifyEmergencyContacts (gw : String → Bool) (contacts : List EmergencyContact)
    (_userName : String) (_a : Alert) : List NotifyResult :=
  contacts.map fun c =>
    { contactId := c.id
      method := ContactMethod.sms
      status := if gw (cleanPhone c.phone) then ContactSendStatus.sent
                else ContactSendStatus.failed }

/-- Request body of `createAlert` (`latitude`, `longitude`, `address`,
`message`, `type`). -/
structure CreateAlertBody where
  latitude : Option Rat
  longitude : Option Rat
  address : Option String
  message : Option String
  type : Option String
deriving DecidableEq

/-- `createAlertValidation` (`src/routes/alertRoutes.js`): express-validator
`isFloat({min,max})` checks — latitude in [-90, 90] and longitude in
[-180, 180], both required. -/
def createAlertValidation (latitude? longitude? : Option Rat) : Bool :=
  match latitude?, longitude? with
  | some lat, some lon => -90 ≤ lat ∧ lat ≤ 90 ∧ -180 ≤ lon ∧ lon ≤ 180
  | _, _ => false

/-- JavaScript `type || 'sos'` (empty string is falsy). -/
def typeOrSos : Option String → String
  | none => "sos"
  | some t => if t = "" then "sos" else t

/-- `createAlert` (alert controller), after the route validation: reject
with 400 `Location is required` when `!latitude || !longitude` (JavaScript
falsiness — `undefined` **and** `0`); otherwise create the alert with
status `active`, priority `high` and the `created` timeline entry, attach
the matched volunteers, notify the requester's active emergency contacts
through the SMS gateway and persist the per-recipient outcomes (or
`pending` placeholder entries when no outcome list was produced). -/
def createAlert (dist : Rat → Rat → Rat → Rat → Rat) (body : CreateAlertBody)
    (caller : UserCtx) (vols : List Volunteer) (geoOk : Bool)
    (contacts : List EmergencyContact) (gw : String → Bool) (now : Int) :
    ApiStatus × Option Alert :=
  if ¬ jsTruthyNum body.latitude ∨ ¬ jsTruthyNum body.longitude then
    (ApiStatus.badRequest, none)
  else
    let lat := body.latitude.getD 0
    let lon := body.longitude.getD 0
    let alert₀ : Alert :=
      { user := caller.id
        location := ⟨(lon, lat), body.address, none⟩
        locationHistory := []
        status := AlertStatus.active
        priority := "high"
        type := typeOrSos body.type
        message := body.message
        notifiedVolunteers := []
        respondingVolunteer := none
        notifiedContacts := []
        timeline := [⟨"created", "Emergency alert created", caller.id, now⟩]
        resolution := Resolution.empty
        responseTime := none
        totalDuration := none
        createdAt := now }
    let nearby := findNearbyVolunteers dist vols geoOk lat lon
    let notified := mkNotifiedVolunteers dist lat lon nearby now
    let activeContacts := contacts.filter fun c => c.user = caller.id && c.isActive
    let results :=
      if 0 < activeContacts.length then
        notifyEmergencyContacts gw activeContacts caller.name alert₀
      else []
    let notifiedContacts : List NotifiedContact :=
      if 0 < results.length then
        results.map fun r => ⟨r.contactId, now, r.method, r.status⟩
      else
        activeContacts.map fun c => ⟨c.id, now, ContactMethod.sms, ContactSendStatus.pending⟩
    (ApiStatus.ok,
      some { alert₀ with notifiedVolunteers := notified, notifiedContacts := notifiedContacts })

/-- The full request pipeline of `POST /api/alerts`: the route validation
(`validate` middleware rejects with 400) followed by the controller. -/
def createAlertRequest (dist : Rat → Rat → Rat → Rat → Rat) (body : CreateAlertBody)
    (caller : UserCtx) (vols : List Volunteer) (geoOk : Bool)
    (contacts : List EmergencyContact) (gw : String → Bool) (now : Int) :
    ApiStatus × Option Alert :=
  if ¬ createAlertValidation body.latitude body.longitude then (ApiStatus.badRequest, none)
  else createAlert dist body caller vols geoOk contacts gw now

/-- `cleanupAlerts` (`src/server.js`): mark `active`/`pending`/`responding`
alerts created more than 24 hours ago as `expired`, then delete every
alert created more than 7 days ago. -/
def cleanupAlerts (alerts : List Alert) (now : Int) : List Alert :=
  let oneDayAgo : Int := now - 24 * 60 * 60 * 1000
  let sevenDaysAgo : Int := now - 7 * 24 * 60 * 60 * 1000
  let afterExpire := alerts.map fun a =>
    if (a.status = AlertStatus.active ∨ a.status = AlertStatus.pending ∨
        a.status = AlertStatus.responding) ∧ a.createdAt < oneDayAgo then
      { a with status := AlertStatus.expired }
    else a
  afterExpire.filter fun a => decide (¬ a.createdAt < sevenDaysAgo)

/-- `setInterval(cleanupAlerts, 6 * 60 * 60 * 1000)` (`src/server.js`):
the sweep interval in milliseconds; the sweep also runs once at startup. -/
def cleanupIntervalMs : Int := 6 * 60 * 60 * 1000

/-- The `save()` of an accept handler: the whole (mutated) document is
written back on success; on a failure response nothing was mutated. -/
def saveIfOk (store : Alert) (r : ApiStatus × Alert) : Alert :=
  if r.1 = ApiStatus.ok then r.2 else store

/-- One interleaving of two concurrent `acceptAlert` handlers on the same
alert: each handler `await`s between `Alert.findById` (read) and the
`save()` (write), so the schedule read₁ · read₂ · write₁ · write₂ is
reachable; each `save()` writes the document computed from that handler's
own stale snapshot (last write wins).  Returns both HTTP outcomes and the
final stored document. -/
def acceptRace (store : Alert) (c₁ c₂ : UserCtx) (v₁ v₂ : Volunteer)
    (t₁ t₂ : Int) : ApiStatus × ApiStatus × Alert :=
  let r₁ := acceptAlert store c₁ (some v₁) t₁
  let r₂ := acceptAlert store c₂ (some v₂) t₂
  let s₁ := saveIfOk store r₁
  let s₂ := saveIfOk s₁ r₂
  (r₁.1, r₂.1, s₂)

/-! ### Concrete fixtures used by the closed theorems and witnesses -/

/-- A concrete stand-in for the Haversine distance (its numeric values are
irrelevant to every claim): the squared euclidean distance of the
coordinate pairs. -/
def exDist : Rat → Rat → Rat → Rat → Rat :=
  fun lat1 lon1 lat2 lon2 =>
    (lat1 - lat2) * (lat1 - lat2) + (lon1 - lon2) * (lon1 - lon2)

/-- A volunteer with 100 successful assists and no badges yet. -/
def exVol100 : Volunteer :=
  { id := 1, userId := 1, isVerified := true, status := VolStatus.active,
    isOnDuty := true, currentLocation := none,
    stats := ⟨0, 100, 0, 200, 0, 0⟩, badges := [] }

/-- A volunteer with 5 responses and a 170 s average response time. -/
def exVol170 : Volunteer := { exVol100 with stats := ⟨5, 0, 0, 170, 0, 0⟩ }

/-- A volunteer with 5 responses and a 181 s average response time. -/
def exVol181 : Volunteer := { exVol100 with stats := ⟨5, 0, 0, 181, 0, 0⟩ }

/-- Notified volunteer A of the example alert. -/
def exVolA : Volunteer :=
  { exVol100 with id := 11, userId := 101, currentLocation := some (77, 12) }

/-- Notified volunteer B of the example alert. -/
def exVolB : Volunteer :=
  { exVol100 with id := 12, userId := 102, currentLocation := some (78, 13) }

/-- The owner of the example alert. -/
def exOwner : UserCtx := ⟨7, "Uma", "user"⟩

/-- The requester account of volunteer A. -/
def exCallerA : UserCtx := ⟨101, "Asha", "volunteer"⟩

/-- The requester account of volunteer B. -/
def exCallerB : UserCtx := ⟨102, "Bina", "volunteer"⟩

/-- An `active` alert on which volunteers A and B were notified. -/
def exAlert : Alert :=
  { user := 7, location := ⟨(77, 12), none, none⟩, locationHistory := [],
    status := AlertStatus.active, priority := "high", type := "sos",
    message := none,
    notifiedVolunteers :=
      [⟨11, 0, some 100, NotifStatus.notified⟩, ⟨12, 0, some 200, NotifStatus.notified⟩],
    respondingVolunteer := none, notifiedContacts := [], timeline := [],
    resolution := Resolution.empty, responseTime := none, totalDuration := none,
    createdAt := 0 }

/-- The example alert after a cancellation. -/
def exAlertCancelled : Alert := { exAlert with status := AlertStatus.cancelled }

/-- The example alert in the `resolved` state. -/
def exAlertResolved : Alert := { exAlert with status := AlertStatus.resolved }

/-- The example alert aged into `expired` by the sweeper. -/
def exAlertExpired : Alert := { exAlert with status := AlertStatus.expired }

/-- The example alert while volunteer A is responding. -/
def exAlertResponding : Alert :=
  { exAlert with
    status := AlertStatus.responding
    respondingVolunteer := some ⟨11, 1000, some 100⟩
    responseTime := some 1 }

/-- The volunteer profile (id 11) responding on `exAlertResponding`. -/
def exVolResp : Volunteer :=
  { exVol100 with id := 11, userId := 101, stats := ⟨1, 1, 0, 100, 0, 0⟩ }

/-- A primary, active emergency contact. -/
def exContact : EmergencyContact := ⟨1, 7, "Mom", "+91 98765-43210", true, true⟩

/-- A gateway on which every SMS send succeeds. -/
def exGw : String → Bool := fun _ => true

/-- A create-alert body whose latitude is `0` (the equator — in range). -/
def exBody0 : CreateAlertBody := ⟨some 0, some 77, none, none, none⟩

/-- A create-alert body with ordinary in-range coordinates. -/
def exBodyOk : CreateAlertBody := ⟨some 12, some 77, none, none, none⟩

/-- A second, non-primary active emergency contact. -/
def exContact2 : EmergencyContact := ⟨2, 7, "Dad", "98765 43211", false, true⟩

/-- A gateway on which only the first example contact's number succeeds. -/
def exGw2 : String → Bool := fun p => p = "9876543210"

/-! ## Theorems -/

/-- C1: the claim states that the `active → responding` transition is an
atomic conditional check-and-set, so that of two concurrent accepts by two
different notified volunteers exactly one succeeds, the other gets a
Conflict, and the responding-volunteer field is never overwritten.  The
controller instead does a read-then-write (`findById` … `save`): under the
reachable schedule read₁ · read₂ · write₁ · write₂, **both** accepts
return success, and the responding volunteer — first set to volunteer A —
is overwritten by volunteer B's later write. -/
theorem acceptRace_readThenWrite_bug :
    (acceptRace exAlert exCallerA exCallerB exVolA exVolB 1000 2000).1 = ApiStatus.ok ∧
    (acceptRace exAlert exCallerA exCallerB exVolA exVolB 1000 2000).2.1 = ApiStatus.ok ∧
    (saveIfOk exAlert (acceptAlert exAlert exCallerA (some exVolA) 1000)).respondingVolunteer
      = some ⟨11, 1000, some 100⟩ ∧
    (acceptRace exAlert exCallerA exCallerB exVolA exVolB 1000 2000).2.2.respondingVolunteer
      = some ⟨12, 2000, some 200⟩ := by
  decide

/-- C2 (counterexample): `resolveAlert` checks no status precondition, so
the owner can resolve an already-`cancelled` alert — the terminal status
`cancelled` is exited to `resolved`. -/
theorem resolve_exits_cancelled_cex :
    exAlertCancelled.status = AlertStatus.cancelled ∧
    (resolveAlert exAlertCancelled exOwner none ⟨none, none, none⟩ 99).1 = ApiStatus.ok ∧
    (resolveAlert exAlertCancelled exOwner none ⟨none, none, none⟩ 99).2.1.status
      = AlertStatus.resolved := by
  decide

/-- C4 (counterexample): the dispatcher
(`src/services/notificationService.js`) never places a voice call — even
for a contact flagged primary, every produced outcome is an `sms`
outcome. -/
theorem notify_no_call_cex :
    exContact.isPrimary = true ∧
    (notifyEmergencyContacts exGw [exContact] "Uma" exAlert).filter
      (fun r => decide (r.method = ContactMethod.call)) = [] := by
  decide

/-- C6: the claim states that a create request carrying in-range
coordinates succeeds and is rejected only when the location is missing.
The route validation indeed accepts latitude 0 (in [-90, 90]), but the
controller's JavaScript falsiness check `!latitude` also rejects the
present value `0`, answering 400 `Location is required` for a valid
equator coordinate. -/
theorem createAlert_zero_coordinate_bug :
    createAlertValidation (some 0) (some 77) = true ∧
    createAlertRequest exDist exBody0 exOwner [] true [] exGw 0
      = (ApiStatus.badRequest, none) := by
  decide

/-- When nothing qualifies, the award list is empty. -/
theorem badgesToAward_eq_nil_of_not_pos (v : Volunteer) (now : Int)
    (h : ¬ 0 < (badgesToAward v now).length) : badgesToAward v now = [] := by
  cases hb : badgesToAward v now with
  | nil => rfl
  | cons a l => rw [hb] at h; simp at h

/-- Both branches of `checkBadges` return the `badgesToAward` list. -/
theorem checkBadges_snd (v : Volunteer) (now : Int) :
    (checkBadges v now).2 = badgesToAward v now := by
  by_cases h : 0 < (badgesToAward v now).length <;> simp [checkBadges, h]

/-- `checkBadges` appends exactly the `badgesToAward` list to `badges`. -/
theorem checkBadges_badges (v : Volunteer) (now : Int) :
    (checkBadges v now).1.badges = v.badges ++ badgesToAward v now := by
  by_cases h : 0 < (badgesToAward v now).length
  · simp [checkBadges, h]
  · simp [checkBadges, h, badgesToAward_eq_nil_of_not_pos v now h]

/-- `checkBadges` never touches the stats. -/
theorem checkBadges_stats (v : Volunteer) (now : Int) :
    (checkBadges v now).1.stats = v.stats := by
  by_cases h : 0 < (badgesToAward v now).length <;> simp [checkBadges, h]

/-- A conditional singleton award vanishes once the badge is present. -/
theorem award_if_empty (c : Prop) [Decidable c] (v₁ : Volunteer) (n i : String)
    (t : Int) (h : c → hasBadge v₁ n = true) :
    (if c ∧ ¬ hasBadge v₁ n then [(⟨n, i, t⟩ : Badge)] else []) = [] := by
  rw [if_neg]
  rintro ⟨hc, hn⟩
  simp [h hc] at hn

/-- Membership in a conditional singleton award. -/
theorem mem_award_component (c : Prop) [Decidable c] (n i : String) (t : Int)
    (b : Badge) (hb : b ∈ (if c then [(⟨n, i, t⟩ : Badge)] else [])) :
    c ∧ b = ⟨n, i, t⟩ := by
  by_cases hc : c
  · rw [if_pos hc] at hb
    simp at hb
    exact ⟨hc, hb⟩
  · rw [if_neg hc] at hb
    simp at hb

/-- Every badge of the award list carries one of the five badge names, its
award time, and was not previously held. -/
theorem mem_badgesToAward (v : Volunteer) (now : Int) (b : Badge)
    (hb : b ∈ badgesToAward v now) :
    ¬ hasBadge v b.name ∧ b.earnedAt = now ∧
      b.name ∈ ["First Responder", "10 Assists", "25 Assists", "50 Assists",
        "Quick Responder"] := by
  unfold badgesToAward at hb
  rcases List.mem_append.1 hb with hb | hb
  · rcases List.mem_append.1 hb with hb | hb
    · rcases List.mem_append.1 hb with hb | hb
      · rcases List.mem_append.1 hb with hb | hb
        · obtain ⟨hc, rfl⟩ := mem_award_component _ _ _ _ _ hb
          exact ⟨hc.2, rfl, by simp⟩
        · obtain ⟨hc, rfl⟩ := mem_award_component _ _ _ _ _ hb
          exact ⟨hc.2, rfl, by simp⟩
      · obtain ⟨hc, rfl⟩ := mem_award_component _ _ _ _ _ hb
        exact ⟨hc.2, rfl, by simp⟩
    · obtain ⟨hc, rfl⟩ := mem_award_component _ _ _ _ _ hb
      exact ⟨hc.2, rfl, by simp⟩
  · obtain ⟨hc, rfl⟩ := mem_award_component _ _ _ _ _ hb
    exact ⟨hc.2, rfl, by simp⟩

/-- The award-list names are pairwise distinct. -/
theorem nodup_badgesToAward_names (v : Volunteer) (now : Int) :
    ((badgesToAward v now).map Badge.name).Nodup := by
  unfold badgesToAward
  split_ifs <;> simp

/-- A badge just awarded is present afterwards. -/
theorem hasBadge_checkBadges_of_mem (v : Volunteer) (now : Int) (b : Badge)
    (hb : b ∈ badgesToAward v now) :
    hasBadge (checkBadges v now).1 b.name = true := by
  unfold hasBadge
  rw [checkBadges_badges, List.any_append]
  have h : (badgesToAward v now).any (fun x => x.name = b.name) = true :=
    List.any_eq_true.2 ⟨b, hb, by simp⟩
  rw [h]
  simp

/-- A badge already present stays present after `checkBadges`. -/
theorem hasBadge_checkBadges_of_hasBadge (v : Volunteer) (now : Int) (n : String)
    (h : hasBadge v n = true) :
    hasBadge (checkBadges v now).1 n = true := by
  unfold hasBadge at h ⊢
  rw [checkBadges_badges, List.any_append, h]
  simp

/-- After one run of `checkBadges`, a second run has nothing to award. -/
theorem badgesToAward_checkBadges (v : Volunteer) (now now₂ : Int) :
    badgesToAward (checkBadges v now).1 now₂ = [] := by
  have hstats := checkBadges_stats v now
  have key : ∀ (c : Prop) (n i : String), (c ∧ ¬ hasBadge v n →
      (⟨n, i, now⟩ : Badge) ∈ badgesToAward v now) → c →
      hasBadge (checkBadges v now).1 n = true := by
    intro c n i hmem hc
    by_cases hh : hasBadge v n
    · exact hasBadge_checkBadges_of_hasBadge v now n hh
    · exact hasBadge_checkBadges_of_mem v now ⟨n, i, now⟩ (hmem ⟨hc, hh⟩)
  unfold badgesToAward
  rw [hstats]
  rw [award_if_empty _ _ _ _ _ (key _ "First Responder" "🏅" (fun hcn => by
    unfold badgesToAward
    simp [hcn.1, hcn.2]))]
  rw [award_if_empty _ _ _ _ _ (key _ "10 Assists" "⭐" (fun hcn => by
    unfold badgesToAward
    simp [hcn.1, hcn.2]))]
  rw [award_if_empty _ _ _ _ _ (key _ "25 Assists" "🌟" (fun hcn => by
    unfold badgesToAward
    simp [hcn.1, hcn.2]))]
  rw [award_if_empty _ _ _ _ _ (key _ "50 Assists" "🏆" (fun hcn => by
    unfold badgesToAward
    simp [hcn.1, hcn.2]))]
  rw [award_if_empty _ _ _ _ _ (key _ "Quick Responder" "⚡" (fun hcn => by
    unfold badgesToAward
    simp [hcn.1.1, hcn.1.2, hcn.2]))]
  rfl

/-- C8 (counterexample): `checkBadges` has no 100-assists badge: a
volunteer crossing 100 successful assists is awarded exactly the
10/25/50-assist badges and nothing for the threshold 100. -/
theorem hundredAssists_no_badge_cex :
    100 ≤ exVol100.stats.successfulAssists ∧
    (checkBadges exVol100 0).2.map Badge.name
      = ["10 Assists", "25 Assists", "50 Assists"] ∧
    (∀ b ∈ (checkBadges exVol100 0).1.badges, b.name ≠ "100 Assists") := by
  decide

/-- A badge is held exactly when its name occurs among the badge names. -/
theorem hasBadge_iff_mem (v : Volunteer) (n : String) :
    hasBadge v n = true ↔ n ∈ v.badges.map Badge.name := by
  simp [hasBadge, List.any_eq_true]

/-- Membership in a conditional singleton list. -/
theorem mem_if_singleton {α : Type} (c : Prop) [Decidable c] (x y : α) :
    (x ∈ (if c then [y] else [])) ↔ c ∧ x = y := by
  by_cases hc : c <;> simp [hc]

/-- Normal form of membership among the award-list names. -/
theorem mem_name_badgesToAward_iff (v : Volunteer) (now : Int) (n : String) :
    n ∈ (badgesToAward v now).map Badge.name ↔
      ((1 ≤ v.stats.totalResponses ∧ ¬ hasBadge v "First Responder") ∧
        n = "First Responder") ∨
      ((10 ≤ v.stats.successfulAssists ∧ ¬ hasBadge v "10 Assists") ∧
        n = "10 Assists") ∨
      ((25 ≤ v.stats.successfulAssists ∧ ¬ hasBadge v "25 Assists") ∧
        n = "25 Assists") ∨
      ((50 ≤ v.stats.successfulAssists ∧ ¬ hasBadge v "50 Assists") ∧
        n = "50 Assists") ∨
      (((v.stats.avgResponseTime < 180 ∧ 5 ≤ v.stats.totalResponses) ∧
        ¬ hasBadge v "Quick Responder") ∧ n = "Quick Responder") := by
  by_cases h₁ : 1 ≤ v.stats.totalResponses ∧ hasBadge v "First Responder" = false <;>
  by_cases h₂ : 10 ≤ v.stats.successfulAssists ∧ hasBadge v "10 Assists" = false <;>
  by_cases h₃ : 25 ≤ v.stats.successfulAssists ∧ hasBadge v "25 Assists" = false <;>
  by_cases h₄ : 50 ≤ v.stats.successfulAssists ∧ hasBadge v "50 Assists" = false <;>
  by_cases h₅ : v.stats.avgResponseTime < 180 ∧ 5 ≤ v.stats.totalResponses ∧
      hasBadge v "Quick Responder" = false <;>
  simp [badgesToAward, h₁, h₂, h₃, h₄, h₅, and_assoc]

/-- C8 (amended): after each stats update the badge check awards First
Responder exactly when total responses ≥ 1 (and it is not already held),
an assist-count badge at each of the thresholds 10, 25 and 50 — there is
**no** 100-assists badge, every award carries one of the five implemented
names — and Quick Responder exactly when the average response time is
below 180 s and total responses ≥ 5 (so a volunteer with 5 responses and a
170 s average earns it, with a 181 s average does not). -/
theorem checkBadges_amended (v : Volunteer) (now : Int) :
    ("First Responder" ∈ (checkBadges v now).2.map Badge.name ↔
      1 ≤ v.stats.totalResponses ∧ ¬ hasBadge v "First Responder") ∧
    ("10 Assists" ∈ (checkBadges v now).2.map Badge.name ↔
      10 ≤ v.stats.successfulAssists ∧ ¬ hasBadge v "10 Assists") ∧
    ("25 Assists" ∈ (checkBadges v now).2.map Badge.name ↔
      25 ≤ v.stats.successfulAssists ∧ ¬ hasBadge v "25 Assists") ∧
    ("50 Assists" ∈ (checkBadges v now).2.map Badge.name ↔
      50 ≤ v.stats.successfulAssists ∧ ¬ hasBadge v "50 Assists") ∧
    ("Quick Responder" ∈ (checkBadges v now).2.map Badge.name ↔
      (v.stats.avgResponseTime < 180 ∧ 5 ≤ v.stats.totalResponses) ∧
        ¬ hasBadge v "Quick Responder") ∧
    (∀ b ∈ (checkBadges v now).2,
      b.name ∈ ["First Responder", "10 Assists", "25 Assists", "50 Assists",
        "Quick Responder"]) := by
  rw [checkBadges_snd]
  refine ⟨?_, ?_, ?_, ?_, ?_, ?_⟩
  · rw [mem_name_badgesToAward_iff]
    constructor
    · rintro (⟨hc, hn⟩ | ⟨hc, hn⟩ | ⟨hc, hn⟩ | ⟨hc, hn⟩ | ⟨hc, hn⟩) <;>
        first
        | exact hc
        | exact absurd hn (by decide)
    · intro hc
      exact Or.inl ⟨hc, rfl⟩
  · rw [mem_name_badgesToAward_iff]
    constructor
    · rintro (⟨hc, hn⟩ | ⟨hc, hn⟩ | ⟨hc, hn⟩ | ⟨hc, hn⟩ | ⟨hc, hn⟩) <;>
        first
        | exact hc
        | exact absurd hn (by decide)
    · intro hc
      exact Or.inr (Or.inl ⟨hc, rfl⟩)
  · rw [mem_name_badgesToAward_iff]
    constructor
    · rintro (⟨hc, hn⟩ | ⟨hc, hn⟩ | ⟨hc, hn⟩ | ⟨hc, hn⟩ | ⟨hc, hn⟩) <;>
        first
        | exact hc
        | exact absurd hn (by decide)
    · intro hc
      exact Or.inr (Or.inr (Or.inl ⟨hc, rfl⟩))
  · rw [mem_name_badgesToAward_iff]
    constructor
    · rintro (⟨hc, hn⟩ | ⟨hc, hn⟩ | ⟨hc, hn⟩ | ⟨hc, hn⟩ | ⟨hc, hn⟩) <;>
        first
        | exact hc
        | exact absurd hn (by decide)
    · intro hc
      exact Or.inr (Or.inr (Or.inr (Or.inl ⟨hc, rfl⟩)))
  · rw [mem_name_badgesToAward_iff]
    constructor
    · rintro (⟨hc, hn⟩ | ⟨hc, hn⟩ | ⟨hc, hn⟩ | ⟨hc, hn⟩ | ⟨hc, hn⟩) <;>
        first
        | exact hc
        | exact absurd hn (by decide)
    · intro hc
      exact Or.inr (Or.inr (Or.inr (Or.inr ⟨hc, rfl⟩)))
  · intro b hb
    exact (mem_badgesToAward v now b hb).2.2

/-- C8 (amended, witness): a fresh volunteer with 5 responses and a 170 s
average earns Quick Responder; with a 181 s average it does not. -/
theorem checkBadges_amended_witness :
    (5 : Nat) ≤ exVol170.stats.totalResponses ∧
    "Quick Responder" ∈ (checkBadges exVol170 0).2.map Badge.name ∧
    ¬ "Quick Responder" ∈ (checkBadges exVol181 0).2.map Badge.name := by
  refine ⟨by decide, ?_, ?_⟩
  · exact ((checkBadges_amended exVol170 0).2.2.2.2.1).mpr (by decide)
  · intro h
    have hq := ((checkBadges_amended exVol181 0).2.2.2.2.1).mp h
    revert hq
    decide

/-- C9: the badge check is idempotent and the badge set grows
monotonically — a second run right after a run awards nothing and leaves
the badges unchanged; the previous badge list is a prefix of the new one
(nothing is removed); each awarded badge was absent before, is present
afterwards, and occurs exactly once afterwards; and the stats update never
touches the badge list. -/
theorem checkBadges_idem_mono (v : Volunteer) (now now₂ : Int) (rt : Rat)
    (ws : Bool) (r? : Option Rat) :
    checkBadges (checkBadges v now).1 now₂ = ((checkBadges v now).1, []) ∧
    v.badges <+: (checkBadges v now).1.badges ∧
    (∀ b ∈ (checkBadges v now).2,
      hasBadge v b.name = false ∧
      hasBadge (checkBadges v now).1 b.name = true ∧
      ((checkBadges v now).1.badges.map Badge.name).count b.name = 1) ∧
    (updateStats v rt ws r?).badges = v.badges := by
  refine ⟨?_, ?_, ?_, rfl⟩
  · have h0 := badgesToAward_checkBadges v now now₂
    rw [checkBadges, h0]
    simp
  · rw [checkBadges_badges]
    exact List.prefix_append _ _
  · intro b hb
    rw [checkBadges_snd] at hb
    obtain ⟨hnot, _, _⟩ := mem_badgesToAward v now b hb
    refine ⟨by simpa using hnot, hasBadge_checkBadges_of_mem v now b hb, ?_⟩
    rw [checkBadges_badges, List.map_append, List.count_append]
    have c₁ : (v.badges.map Badge.name).count b.name = 0 := by
      rw [List.count_eq_zero]
      intro hmem
      exact hnot ((hasBadge_iff_mem v b.name).2 hmem)
    have c₂ : ((badgesToAward v now).map Badge.name).count b.name = 1 :=
      List.count_eq_one_of_mem (nodup_badgesToAward_names v now)
        (List.mem_map.2 ⟨b, hb, rfl⟩)
    rw [c₁, c₂]

/-- C9 (witness): the idempotence and exactly-once facts evaluated on a
volunteer crossing the 10/25/50-assist thresholds. -/
theorem checkBadges_idem_mono_witness :
    checkBadges (checkBadges exVol100 0).1 5 = ((checkBadges exVol100 0).1, []) ∧
    (⟨"10 Assists", "⭐", 0⟩ : Badge) ∈ (checkBadges exVol100 0).2 ∧
    hasBadge exVol100 "10 Assists" = false ∧
    hasBadge (checkBadges exVol100 0).1 "10 Assists" = true ∧
    ((checkBadges exVol100 0).1.badges.map Badge.name).count "10 Assists" = 1 ∧
    (updateStats exVol100 7 true (some 4)).badges = exVol100.badges := by
  have h := checkBadges_idem_mono exVol100 0 5 7 true (some 4)
  have hm := h.2.2.1 ⟨"10 Assists", "⭐", 0⟩ (by decide)
  exact ⟨h.1, by decide, hm.1, hm.2.1, hm.2.2, h.2.2.2⟩

/-- Appending a timeline entry never changes the status. -/
theorem addTimelineEntry_status (a : Alert) (x y : String) (p : Nat) (t : Int) :
    (addTimelineEntry a x y p t).status = a.status := rfl

/-- Computing the total duration never changes the status. -/
theorem calculateTotalDuration_status (a : Alert) :
    (calculateTotalDuration a).status = a.status := by
  unfold calculateTotalDuration
  cases a.resolution.resolvedAt <;> rfl

/-- Computing the response time never changes the status. -/
theorem calculateResponseTime_status (a : Alert) :
    (calculateResponseTime a).status = a.status := by
  unfold calculateResponseTime
  cases a.respondingVolunteer <;> rfl

/-- C2 (amended): for an alert in a terminal status (`resolved`,
`cancelled`, `expired`), accept answers Conflict and leaves the alert
unchanged, update-live-location never changes the status, and cancel
leaves a `resolved` or `cancelled` alert unchanged; **however** — contrary
to the claim as stated — cancel by the owner moves an `expired` alert to
`cancelled`, and resolve by any authorized caller (owner, responding
volunteer, or admin) sets the status of an alert in *any* status to
`resolved`. -/
theorem terminalStatus_amended (alert : Alert) (caller : UserCtx)
    (vol? : Option Volunteer) (body : ResolveBody) (lat lon : Rat) (now : Int) :
    (alert.status = AlertStatus.resolved ∨ alert.status = AlertStatus.cancelled ∨
        alert.status = AlertStatus.expired →
      acceptAlert alert caller vol? now = (ApiStatus.badRequest, alert)) ∧
    ((updateAlertLocation alert caller lat lon now).2.status = alert.status) ∧
    (alert.status = AlertStatus.resolved ∨ alert.status = AlertStatus.cancelled →
      (cancelAlert alert caller now).2 = alert) ∧
    (alert.status = AlertStatus.expired → alert.user = caller.id →
      (cancelAlert alert caller now).1 = ApiStatus.ok ∧
      (cancelAlert alert caller now).2.status = AlertStatus.cancelled) ∧
    (alert.user = caller.id ∨ caller.role = "admin" ∨
        (∃ v rv, vol? = some v ∧ alert.respondingVolunteer = some rv ∧
          rv.volunteer = v.id) →
      (resolveAlert alert caller vol? body now).2.1.status = AlertStatus.resolved) := by
  refine ⟨?_, ?_, ?_, ?_, ?_⟩
  · intro h
    have hne : alert.status ≠ AlertStatus.active := by
      rcases h with h | h | h <;> simp [h]
    simp [acceptAlert, hne]
  · unfold updateAlertLocation
    split_ifs <;> rfl
  · intro h
    unfold cancelAlert
    by_cases hu : alert.user ≠ caller.id
    · rw [if_pos hu]
    · rw [if_neg hu, if_pos h]
  · intro hexp huser
    have hs : ¬ (alert.status = AlertStatus.resolved ∨
        alert.status = AlertStatus.cancelled) := by
      rw [hexp]
      rintro (h | h) <;> exact AlertStatus.noConfusion h
    constructor <;> simp [cancelAlert, huser, hs, addTimelineEntry]
  · intro h
    rcases h with howner | hadmin | ⟨v, rv, hv, hrv, heq⟩
    · simp [resolveAlert, howner, addTimelineEntry_status, calculateTotalDuration_status]
    · simp [resolveAlert, hadmin, addTimelineEntry_status, calculateTotalDuration_status]
    · subst hv
      simp [resolveAlert, hrv, heq, addTimelineEntry_status, calculateTotalDuration_status]

/-- C2 (amended, witness): the amended statement evaluated on concrete
terminal alerts. -/
theorem terminalStatus_amended_witness :
    acceptAlert exAlertResolved exCallerA (some exVolA) 5
      = (ApiStatus.badRequest, exAlertResolved) ∧
    (updateAlertLocation exAlertExpired exOwner 1 2 5).2.status
      = exAlertExpired.status ∧
    (cancelAlert exAlertResolved exOwner 5).2 = exAlertResolved ∧
    (cancelAlert exAlertExpired exOwner 5).1 = ApiStatus.ok ∧
    (cancelAlert exAlertExpired exOwner 5).2.status = AlertStatus.cancelled ∧
    (resolveAlert exAlertCancelled exOwner none ⟨none, none, none⟩ 5).2.1.status
      = AlertStatus.resolved := by
  refine ⟨?_, ?_, ?_, ?_, ?_, ?_⟩
  · exact (terminalStatus_amended exAlertResolved exCallerA (some exVolA)
      ⟨none, none, none⟩ 1 2 5).1 (Or.inl (by decide))
  · exact (terminalStatus_amended exAlertExpired exOwner none
      ⟨none, none, none⟩ 1 2 5).2.1
  · exact (terminalStatus_amended exAlertResolved exOwner none
      ⟨none, none, none⟩ 1 2 5).2.2.1 (Or.inl (by decide))
  · exact ((terminalStatus_amended exAlertExpired exOwner none
      ⟨none, none, none⟩ 1 2 5).2.2.2.1 (by decide) (by decide)).1
  · exact ((terminalStatus_amended exAlertExpired exOwner none
      ⟨none, none, none⟩ 1 2 5).2.2.2.1 (by decide) (by decide)).2
  · exact (terminalStatus_amended exAlertCancelled exOwner none
      ⟨none, none, none⟩ 1 2 5).2.2.2.2 (Or.inl (by decide))

/-- When `find?` locates the caller's notified entry, the list splits into
a prefix of other volunteers, that entry, and a suffix; marking acceptance
rewrites exactly that entry's status. -/
theorem markAcceptedEntry_of_find (l : List NotifiedVolunteer) (vid : Nat)
    (entry : NotifiedVolunteer)
    (h : l.find? (fun nv => nv.volunteer = vid) = some entry) :
    ∃ l₁ l₂, l = l₁ ++ entry :: l₂ ∧ (∀ e ∈ l₁, e.volunteer ≠ vid) ∧
      markAcceptedEntry l vid
        = l₁ ++ { entry with status := NotifStatus.accepted } :: l₂ := by
  induction l with
  | nil => simp [List.find?] at h
  | cons a rest ih =>
    by_cases ha : a.volunteer = vid
    · rw [List.find?_cons_of_pos _ (by simpa using ha)] at h
      obtain rfl : a = entry := by simpa using h
      exact ⟨[], rest, rfl, by simp, by simp [markAcceptedEntry, ha]⟩
    · rw [List.find?_cons_of_neg _ (by simpa using ha)] at h
      obtain ⟨l₁, l₂, hl, hni, hm⟩ := ih h
      refine ⟨a :: l₁, l₂, by simp [hl], ?_, by simp [markAcceptedEntry, ha, hm]⟩
      intro e he
      rcases List.mem_cons.1 he with rfl | he
      · exact ha
      · exact hni e he

/-- C3: accept succeeds exactly when the alert is `active` and the
caller's volunteer profile appears in the notified-volunteers list.  When
the status is not `active` the caller gets Conflict (HTTP 400) with the
alert unchanged; when the caller has no volunteer profile or was never
notified the caller gets Forbidden (HTTP 403) with the alert unchanged; on
success the status becomes `responding`, the responding volunteer is
recorded with accepted-at timestamp and the notified entry's distance, the
response time is computed from the timestamps, exactly the caller's
notified entry is marked `accepted`, and exactly one timeline entry is
appended. -/
theorem acceptAlert_spec (alert : Alert) (caller : UserCtx)
    (vol? : Option Volunteer) (now : Int) :
    (alert.status ≠ AlertStatus.active →
      acceptAlert alert caller vol? now = (ApiStatus.badRequest, alert)) ∧
    (alert.status = AlertStatus.active →
      (vol? = none ∨ ∃ v, vol? = some v ∧
        alert.notifiedVolunteers.find? (fun nv => nv.volunteer = v.id) = none) →
      acceptAlert alert caller vol? now = (ApiStatus.forbidden, alert)) ∧
    (∀ v entry, alert.status = AlertStatus.active → vol? = some v →
      alert.notifiedVolunteers.find? (fun nv => nv.volunteer = v.id) = some entry →
      (acceptAlert alert caller vol? now).1 = ApiStatus.ok ∧
      (acceptAlert alert caller vol? now).2.status = AlertStatus.responding ∧
      (acceptAlert alert caller vol? now).2.respondingVolunteer
        = some ⟨v.id, now, entry.distance⟩ ∧
      (acceptAlert alert caller vol? now).2.responseTime
        = some (Int.fdiv (now - alert.createdAt) 1000) ∧
      (acceptAlert alert caller vol? now).2.timeline
        = alert.timeline ++ [⟨"accepted",
            "Volunteer " ++ caller.name ++ " accepted the alert", caller.id, now⟩] ∧
      (∃ l₁ l₂, alert.notifiedVolunteers = l₁ ++ entry :: l₂ ∧
        (∀ e ∈ l₁, e.volunteer ≠ v.id) ∧
        (acceptAlert alert caller vol? now).2.notifiedVolunteers
          = l₁ ++ { entry with status := NotifStatus.accepted } :: l₂)) := by
  refine ⟨?_, ?_, ?_⟩
  · intro h
    simp [acceptAlert, h]
  · intro hact hcase
    rcases hcase with rfl | ⟨v, rfl, hfind⟩
    · simp [acceptAlert, hact]
    · simp [acceptAlert, hact, hfind]
  · intro v entry hact hv hfind
    subst hv
    obtain ⟨l₁, l₂, hl, hni, hm⟩ :=
      markAcceptedEntry_of_find alert.notifiedVolunteers v.id entry hfind
    refine ⟨?_, ?_, ?_, ?_, ?_, ⟨l₁, l₂, hl, hni, ?_⟩⟩ <;>
      simp [acceptAlert, hact, hfind, calculateResponseTime, addTimelineEntry, hm]

/-- C3 (witness): the three accept outcomes evaluated on the example
alert — Conflict on a non-`active` alert, Forbidden for a caller without a
profile, and the full success effect for notified volunteer A. -/
theorem acceptAlert_spec_witness :
    acceptAlert exAlertResolved exCallerA (some exVolA) 5
      = (ApiStatus.badRequest, exAlertResolved) ∧
    acceptAlert exAlert exCallerB none 5 = (ApiStatus.forbidden, exAlert) ∧
    (acceptAlert exAlert exCallerA (some exVolA) 1000).1 = ApiStatus.ok ∧
    (acceptAlert exAlert exCallerA (some exVolA) 1000).2.status
      = AlertStatus.responding ∧
    (acceptAlert exAlert exCallerA (some exVolA) 1000).2.respondingVolunteer
      = some ⟨11, 1000, some 100⟩ := by
  have h := acceptAlert_spec exAlert exCallerA (some exVolA) 1000
  have h3 := h.2.2 exVolA ⟨11, 0, some 100, NotifStatus.notified⟩
    (by decide) rfl (by decide)
  exact ⟨(acceptAlert_spec exAlertResolved exCallerA (some exVolA) 5).1 (by decide),
    (acceptAlert_spec exAlert exCallerB none 5).2.1 (by decide) (Or.inl rfl),
    h3.1, h3.2.1, h3.2.2.1⟩

/-- Per-index correspondence between the contacts and the dispatch
results: each result is determined by its own contact alone. -/
theorem zip_notifyEmergencyContacts (gw : String → Bool) (un : String) (a : Alert)
    (contacts : List EmergencyContact) :
    ∀ p ∈ contacts.zip (notifyEmergencyContacts gw contacts un a),
      p.2.contactId = p.1.id ∧ p.2.method = ContactMethod.sms ∧
      p.2.status = (if gw (cleanPhone p.1.phone) then ContactSendStatus.sent
        else ContactSendStatus.failed) := by
  induction contacts with
  | nil => simp [notifyEmergencyContacts]
  | cons c rest ih =>
    intro p hp
    simp only [notifyEmergencyContacts, List.map_cons, List.zip_cons_cons,
      List.mem_cons] at hp
    rcases hp with rfl | hp
    · exact ⟨rfl, rfl, rfl⟩
    · exact ih p (by simpa [notifyEmergencyContacts] using hp)

/-- C4 (amended): for every alert creation with at least one active
emergency contact, the dispatcher sends an SMS — whose text ends in the
live-location link — to every active emergency contact of the alerting
user, attempts each send independently (each outcome is a function of that
contact alone, so one failure never aborts the others) and persists a
per-recipient outcome tagged `sent` or `failed` on the alert's
notified-contacts list; **however** — contrary to the claim as stated —
no voice call is placed to the primary contact (or anyone): every send is
an SMS. -/
theorem notifyContacts_amended (gw : String → Bool)
    (contacts : List EmergencyContact) (un : String) (a : Alert)
    (dist : Rat → Rat → Rat → Rat → Rat) (body : CreateAlertBody)
    (caller : UserCtx) (vols : List Volunteer) (geoOk : Bool) (now : Int) :
    (notifyEmergencyContacts gw contacts un a).length = contacts.length ∧
    (∀ p ∈ contacts.zip (notifyEmergencyContacts gw contacts un a),
      p.2.contactId = p.1.id ∧ p.2.method = ContactMethod.sms ∧
      p.2.status = (if gw (cleanPhone p.1.phone) then ContactSendStatus.sent
        else ContactSendStatus.failed)) ∧
    (∃ pre, smsMessage un a = pre ++ locationLink a) ∧
    (jsTruthyNum body.latitude = true → jsTruthyNum body.longitude = true →
      0 < (contacts.filter fun c => c.user = caller.id && c.isActive).length →
      ∃ al, createAlert dist body caller vols geoOk contacts gw now
          = (ApiStatus.ok, some al) ∧
        al.notifiedContacts = (contacts.filter
            fun c => c.user = caller.id && c.isActive).map
          (fun c => ⟨c.id, now, ContactMethod.sms,
            if gw (cleanPhone c.phone) then ContactSendStatus.sent
            else ContactSendStatus.failed⟩) ∧
        ∀ e ∈ al.notifiedContacts,
          e.status = ContactSendStatus.sent ∨
          e.status = ContactSendStatus.failed) := by
  refine ⟨by simp [notifyEmergencyContacts],
    zip_notifyEmergencyContacts gw un a contacts,
    ⟨"EMERGENCY! " ++ un ++ " triggered SOS on SafeHer and needs help. " ++
      "Location: ", rfl⟩, ?_⟩
  intro hlat hlon hactive
  unfold createAlert
  rw [if_neg (by simp [hlat, hlon])]
  refine ⟨_, rfl, ?_, ?_⟩
  · simp [hactive, notifyEmergencyContacts, List.map_map, Function.comp]
  · intro e he
    simp [hactive, notifyEmergencyContacts, List.map_map, Function.comp,
      List.mem_map] at he
    obtain ⟨c, hc, rfl⟩ := he
    by_cases hg : gw (cleanPhone c.phone) <;> simp [hg]

/-- C4 (amended, witness): two active contacts, of which only the first
number is accepted by the gateway — both sends are attempted, the
outcomes are `sent` and `failed` respectively, and they are persisted on
the created alert. -/
theorem notifyContacts_amended_witness :
    (notifyEmergencyContacts exGw2 [exContact, exContact2] "Uma" exAlert).length
      = 2 ∧
    (∃ al, createAlert exDist exBodyOk exOwner [] false [exContact, exContact2]
        exGw2 0 = (ApiStatus.ok, some al) ∧
      al.notifiedContacts = (([exContact, exContact2]).filter
          (fun c => c.user = exOwner.id && c.isActive)).map
        (fun c => ⟨c.id, 0, ContactMethod.sms,
          if exGw2 (cleanPhone c.phone) then ContactSendStatus.sent
          else ContactSendStatus.failed⟩) ∧
      ∀ e ∈ al.notifiedContacts,
        e.status = ContactSendStatus.sent ∨
        e.status = ContactSendStatus.failed) := by
  have h := notifyContacts_amended exGw2 [exContact, exContact2] "Uma" exAlert
    exDist exBodyOk exOwner [] false 0
  exact ⟨h.1, h.2.2.2 (by decide) (by decide) (by decide)⟩

/-- Membership through `insertByDist`. -/
theorem mem_insertByDist (p q : Volunteer × Rat) (l : List (Volunteer × Rat)) :
    q ∈ insertByDist p l ↔ q = p ∨ q ∈ l := by
  induction l with
  | nil => simp [insertByDist]
  | cons a rest ih =>
    by_cases h : p.2 ≤ a.2
    · simp [insertByDist, h]
    · simp [insertByDist, h, ih]
      tauto

/-- `insertByDist` preserves ascending order by distance. -/
theorem pairwise_insertByDist (p : Volunteer × Rat) (l : List (Volunteer × Rat))
    (hl : l.Pairwise (fun a b => a.2 ≤ b.2)) :
    (insertByDist p l).Pairwise (fun a b => a.2 ≤ b.2) := by
  induction l with
  | nil => simp [insertByDist]
  | cons a rest ih =>
    rcases List.pairwise_cons.1 hl with ⟨ha, hrest⟩
    by_cases h : p.2 ≤ a.2
    · simp only [insertByDist, if_pos h]
      refine List.pairwise_cons.2 ⟨?_, hl⟩
      intro b hb
      rcases List.mem_cons.1 hb with rfl | hb
      · exact h
      · exact le_trans h (ha b hb)
    · simp only [insertByDist, if_neg h]
      refine List.pairwise_cons.2 ⟨?_, ih hrest⟩
      intro b hb
      rcases (mem_insertByDist p b rest).1 hb with rfl | hb
      · exact le_of_not_le h
      · exact ha b hb

/-- `sortByDist` produces an ascending-by-distance list. -/
theorem pairwise_sortByDist (l : List (Volunteer × Rat)) :
    (sortByDist l).Pairwise (fun a b => a.2 ≤ b.2) := by
  induction l with
  | nil => simp [sortByDist]
  | cons p rest ih => simpa [sortByDist] using pairwise_insertByDist p _ ih

/-- `sortByDist` neither adds nor removes pairs. -/
theorem mem_sortByDist (l : List (Volunteer × Rat)) (q : Volunteer × Rat) :
    q ∈ sortByDist l ↔ q ∈ l := by
  induction l with
  | nil => simp [sortByDist]
  | cons p rest ih => simp [sortByDist, mem_insertByDist, ih]

/-- C5: the matcher uses the configured defaults (5 km radius, at most 10
volunteers); its result is always capped at the maximum; the geospatial
query yields eligible (verified/active/on-duty) volunteers with a reported
location within the radius, ordered ascending by distance; whenever the
query fails (`geoOk = false`) or returns empty, the matcher falls back to
the eligible volunteers without a distance filter, still capped; and each
notified-volunteers entry carries the distance computed from the location
that volunteer reports, or no distance when the volunteer reports none. -/
theorem matcher_spec (dist : Rat → Rat → Rat → Rat → Rat)
    (vols : List Volunteer) (geoOk : Bool) (lat lon : Rat) (now : Int) :
    searchRadius = 5 ∧ maxVolunteersToNotify = 10 ∧
    (findNearbyVolunteers dist vols geoOk lat lon).length
      ≤ maxVolunteersToNotify ∧
    (geoNearPairs dist lat lon (searchRadius * 1000) vols).Pairwise
      (fun p q => p.2 ≤ q.2) ∧
    (∀ p ∈ geoNearPairs dist lat lon (searchRadius * 1000) vols,
      isEligible p.1 = true ∧ ∃ c, p.1.currentLocation = some c ∧
        p.2 = dist lat lon c.2 c.1 ∧ p.2 ≤ searchRadius * 1000) ∧
    (geoOk = false ∨ geoNearPairs dist lat lon (searchRadius * 1000) vols = [] →
      findNearbyVolunteers dist vols geoOk lat lon
        = (vols.filter isEligible).take maxVolunteersToNotify) ∧
    (geoOk = true →
      geoNearPairs dist lat lon (searchRadius * 1000) vols ≠ [] →
      findNearbyVolunteers dist vols geoOk lat lon
        = ((geoNearPairs dist lat lon (searchRadius * 1000) vols).take
            maxVolunteersToNotify).map Prod.fst) ∧
    (∀ e ∈ mkNotifiedVolunteers dist lat lon
        (findNearbyVolunteers dist vols geoOk lat lon) now,
      e.status = NotifStatus.notified ∧ e.notifiedAt = now ∧
      ∃ v ∈ findNearbyVolunteers dist vols geoOk lat lon, e.volunteer = v.id ∧
        e.distance = v.currentLocation.map (fun c => dist lat lon c.2 c.1)) := by
  refine ⟨rfl, rfl, ?_, ?_, ?_, ?_, ?_, ?_⟩
  · unfold findNearbyVolunteers
    have aux : ∀ (l fb : List Volunteer), l.length ≤ maxVolunteersToNotify →
        (if l.length = 0 then (fb.filter isEligible).take maxVolunteersToNotify
          else l).length ≤ maxVolunteersToNotify := by
      intro l fb hl
      split_ifs
      · rw [List.length_take]
        exact min_le_left _ _
      · exact hl
    cases geoOk
    · rw [if_neg Bool.false_ne_true]
      exact aux [] vols (Nat.zero_le _)
    · rw [if_pos rfl]
      refine aux _ vols ?_
      rw [List.length_map, List.length_take]
      exact min_le_left _ _
  · unfold geoNearPairs
    exact pairwise_sortByDist _
  · intro p hp
    unfold geoNearPairs at hp
    rw [mem_sortByDist] at hp
    rcases List.mem_filterMap.1 hp with ⟨v, hv, hf⟩
    cases hloc : v.currentLocation with
    | none => rw [hloc] at hf; simp at hf
    | some c =>
      rw [hloc] at hf
      dsimp only at hf
      by_cases hcond : isEligible v = true ∧ dist lat lon c.2 c.1 ≤ searchRadius * 1000
      · rw [if_pos hcond] at hf
        obtain rfl := Option.some.inj hf
        exact ⟨hcond.1, c, hloc, rfl, hcond.2⟩
      · rw [if_neg hcond] at hf
        simp at hf
  · intro h
    rcases h with h | h
    · subst h
      simp [findNearbyVolunteers]
    · unfold findNearbyVolunteers
      rw [h]
      cases geoOk <;> simp
  · intro hgeo hne
    subst hgeo
    have hL : (geoNearPairs dist lat lon (searchRadius * 1000) vols).length ≠ 0 := by
      simpa [List.length_eq_zero] using hne
    simp [findNearbyVolunteers, List.length_take, Nat.min_eq_zero_iff, hL,
      maxVolunteersToNotify]
  · intro e he
    rcases List.mem_map.1 he with ⟨v, hv, rfl⟩
    refine ⟨rfl, rfl, v, hv, rfl, ?_⟩
    cases hloc : v.currentLocation <;> simp [hloc]

/-- C5 (witness): the fallback evaluated when the geospatial query throws,
and the geospatial branch evaluated when it returns volunteer A. -/
theorem matcher_spec_witness :
    findNearbyVolunteers exDist [exVol100, exVolA] false 12 77
      = ([exVol100, exVolA].filter isEligible).take maxVolunteersToNotify ∧
    findNearbyVolunteers exDist [exVolA] true 12 77
      = ((geoNearPairs exDist 12 77 (searchRadius * 1000) [exVolA]).take
          maxVolunteersToNotify).map Prod.fst := by
  refine ⟨?_, ?_⟩
  · exact (matcher_spec exDist [exVol100, exVolA] false 12 77 0).2.2.2.2.2.1
      (Or.inl rfl)
  · refine (matcher_spec exDist [exVolA] true 12 77 0).2.2.2.2.2.2.1 rfl ?_
    have hd : exDist 12 77 12 77 = 0 := by norm_num [exDist]
    have h2 : (0 : Rat) ≤ searchRadius * 1000 := by norm_num [searchRadius]
    unfold geoNearPairs
    simp [List.filterMap_cons, exVolA, exVol100, isEligible, hd, h2, sortByDist,
      insertByDist]

/-- C7: each sweeper run deletes every alert created more than 7 days ago
(regardless of status), transitions every remaining `pending`/`active`/
`responding` alert created more than 24 hours ago to `expired`, and leaves
every other alert (e.g. one created 2 hours ago) untouched; the schedule
constant is 6 hours (the sweep also runs once at startup, and its body is
wrapped in a `try`/`catch` that only logs). -/
theorem cleanupAlerts_spec (alerts : List Alert) (now : Int) :
    cleanupAlerts alerts now
      = alerts.filterMap (fun a =>
          if a.createdAt < now - 7 * 24 * 60 * 60 * 1000 then none
          else if (a.status = AlertStatus.active ∨ a.status = AlertStatus.pending ∨
              a.status = AlertStatus.responding) ∧
              a.createdAt < now - 24 * 60 * 60 * 1000 then
            some { a with status := AlertStatus.expired }
          else some a) ∧
    cleanupIntervalMs = 6 * 60 * 60 * 1000 := by
  refine ⟨?_, rfl⟩
  induction alerts with
  | nil => rfl
  | cons a rest ih =>
    simp only [cleanupAlerts] at ih ⊢
    rw [List.map_cons, List.filterMap_cons]
    by_cases h7 : a.createdAt < now - 7 * 24 * 60 * 60 * 1000
    · rw [if_pos h7]
      by_cases hc : (a.status = AlertStatus.active ∨ a.status = AlertStatus.pending ∨
          a.status = AlertStatus.responding) ∧
          a.createdAt < now - 24 * 60 * 60 * 1000
      · rw [if_pos hc, List.filter_cons_of_neg]
        · exact ih
        · simp
          omega
      · rw [if_neg hc, List.filter_cons_of_neg]
        · exact ih
        · simp
          omega
    · rw [if_neg h7]
      by_cases hc : (a.status = AlertStatus.active ∨ a.status = AlertStatus.pending ∨
          a.status = AlertStatus.responding) ∧
          a.createdAt < now - 24 * 60 * 60 * 1000
      · rw [if_pos hc, if_pos hc, List.filter_cons_of_pos]
        · rw [ih]
        · simp
          omega
      · rw [if_neg hc, if_neg hc, List.filter_cons_of_pos]
        · rw [ih]
        · simp
          omega

/-- Reduction of `resolveAlert` when the caller is the responding
volunteer: success, resolution block filled, stats updated and badges
re-checked. -/
theorem resolveAlert_responding (alert : Alert) (caller : UserCtx)
    (vol : Volunteer) (rv : RespondingVolunteer) (body : ResolveBody) (now : Int)
    (hrv : alert.respondingVolunteer = some rv) (hid : rv.volunteer = vol.id) :
    resolveAlert alert caller (some vol) body now
      = (ApiStatus.ok,
         addTimelineEntry (calculateTotalDuration
           { alert with
             status := AlertStatus.resolved
             resolution :=
               ⟨some caller.id, some now, body.notes, body.rating, body.feedback⟩ })
           "resolved" "Alert resolved" caller.id now,
         some (checkBadges (updateStats vol
           ((alert.responseTime.getD 0 : Int) : Rat) true body.rating) now).1) := by
  unfold resolveAlert
  rw [hrv]
  simp [hid]

/-- `submitFeedback` with a missing rating is rejected with 400 and no
state change. -/
theorem submitFeedback_missing_rating (alert : Alert) (caller : UserCtx)
    (fb? : Option String) (respVol? : Option Volunteer) (now : Int)
    (howner : alert.user = caller.id) (hstat : alert.status = AlertStatus.resolved) :
    submitFeedback alert caller none fb? respVol? now
      = (ApiStatus.badRequest, alert, respVol?) := by
  unfold submitFeedback
  simp [howner, hstat, jsTruthyNum]

/-- Reduction of `submitFeedback` on a resolved alert with a responding
volunteer, called by the owner with an in-range rating. -/
theorem submitFeedback_ok (alert : Alert) (caller : UserCtx) (r : Rat)
    (fb? : Option String) (w : Volunteer) (now : Int)
    (howner : alert.user = caller.id) (hstat : alert.status = AlertStatus.resolved)
    (hrsome : alert.respondingVolunteer.isSome = true)
    (hr0 : r ≠ 0) (hr1 : 1 ≤ r) (hr5 : r ≤ 5) :
    submitFeedback alert caller (some r) fb? (some w) now
      = (ApiStatus.ok,
         { alert with resolution := { alert.resolution with
             rating := some r
             feedback := some (fb?.getD "") } },
         some (checkBadges { w with stats := { w.stats with
             totalRatings := w.stats.totalRatings + 1
             rating := (w.stats.rating * (w.stats.totalRatings : Rat) + r)
               / ((w.stats.totalRatings + 1 : Nat) : Rat) } } now).1) := by
  unfold submitFeedback
  simp [howner, hstat, hrsome, jsTruthyNum, hr0, not_lt.2 hr1, not_lt.2 hr5]

/-- The stats written by `updateStats` when a (truthy) rating is given. -/
theorem updateStats_rating_some (v : Volunteer) (rt : Rat) (ws : Bool)
    (r : Rat) (hr : r ≠ 0) :
    (updateStats v rt ws (some r)).stats.totalRatings
        = v.stats.totalRatings + 1 ∧
    (updateStats v rt ws (some r)).stats.rating
        = (v.stats.rating * (v.stats.totalRatings : Rat) + r)
          / ((v.stats.totalRatings + 1 : Nat) : Rat) := by
  simp [updateStats, hr]

/-- C10: when the responding volunteer resolves an alert with a rating and
the owner later submits feedback with another rating on the same alert,
the volunteer's rating count is incremented twice and the running average
incorporates both samples — the feedback rating does not replace the
resolve-time sample; additionally, submit-feedback rejects a request with
no rating (400) even though the rating at resolve time is optional. -/
theorem double_rating_spec (alert : Alert) (owner volCaller : UserCtx)
    (vol : Volunteer) (rv : RespondingVolunteer) (r₁ r₂ : Rat)
    (notes fb fb₂ : Option String) (t₁ t₂ : Int)
    (hrv : alert.respondingVolunteer = some rv) (hid : rv.volunteer = vol.id)
    (howner : alert.user = owner.id)
    (hr₁ : r₁ ≠ 0) (hr₂a : 1 ≤ r₂) (hr₂b : r₂ ≤ 5) :
    (resolveAlert alert volCaller (some vol) ⟨notes, none, fb⟩ t₁).1
      = ApiStatus.ok ∧
    (∃ a' w, resolveAlert alert volCaller (some vol) ⟨notes, some r₁, fb⟩ t₁
        = (ApiStatus.ok, a', some w) ∧
      w.stats.totalRatings = vol.stats.totalRatings + 1 ∧
      submitFeedback a' owner none fb₂ (some w) t₂
        = (ApiStatus.badRequest, a', some w) ∧
      ∃ w₂, (submitFeedback a' owner (some r₂) fb₂ (some w) t₂).1
          = ApiStatus.ok ∧
        (submitFeedback a' owner (some r₂) fb₂ (some w) t₂).2.2 = some w₂ ∧
        w₂.stats.totalRatings = vol.stats.totalRatings + 2 ∧
        w₂.stats.rating
          = (vol.stats.rating * (vol.stats.totalRatings : Rat) + r₁ + r₂)
            / ((vol.stats.totalRatings : Rat) + 2)) := by
  have hres := resolveAlert_responding alert volCaller vol rv
    ⟨notes, some r₁, fb⟩ t₁ hrv hid
  have hres0 := resolveAlert_responding alert volCaller vol rv
    ⟨notes, none, fb⟩ t₁ hrv hid
  refine ⟨by rw [hres0], ?_⟩
  set w := (checkBadges (updateStats vol
    ((alert.responseTime.getD 0 : Int) : Rat) true (some r₁)) t₁).1 with hw
  set a' := addTimelineEntry (calculateTotalDuration
    { alert with
      status := AlertStatus.resolved
      resolution := ⟨some volCaller.id, some t₁, notes, some r₁, fb⟩ })
    "resolved" "Alert resolved" volCaller.id t₁ with ha
  have hstats : w.stats = (updateStats vol
      ((alert.responseTime.getD 0 : Int) : Rat) true (some r₁)).stats :=
    checkBadges_stats _ _
  have hupd := updateStats_rating_some vol
    ((alert.responseTime.getD 0 : Int) : Rat) true r₁ hr₁
  have hwtr : w.stats.totalRatings = vol.stats.totalRatings + 1 := by
    rw [hstats, hupd.1]
  have hwr : w.stats.rating = (vol.stats.rating * (vol.stats.totalRatings : Rat)
      + r₁) / ((vol.stats.totalRatings + 1 : Nat) : Rat) := by
    rw [hstats, hupd.2]
  have hauser : a'.user = alert.user := by
    rw [ha]
    unfold addTimelineEntry calculateTotalDuration
    cases ({ alert with
      status := AlertStatus.resolved
      resolution := ⟨some volCaller.id, some t₁, notes, some r₁, fb⟩ }
        : Alert).resolution.resolvedAt <;> rfl
  have hastat : a'.status = AlertStatus.resolved := by
    rw [ha, addTimelineEntry_status, calculateTotalDuration_status]
  have harv : a'.respondingVolunteer = alert.respondingVolunteer := by
    rw [ha]
    unfold addTimelineEntry calculateTotalDuration
    cases ({ alert with
      status := AlertStatus.resolved
      resolution := ⟨some volCaller.id, some t₁, notes, some r₁, fb⟩ }
        : Alert).resolution.resolvedAt <;> rfl
  have hasome : a'.respondingVolunteer.isSome = true := by
    rw [harv, hrv]
    rfl
  have howner' : a'.user = owner.id := by rw [hauser, howner]
  refine ⟨a', w, by rw [hres], hwtr,
    submitFeedback_missing_rating a' owner fb₂ (some w) t₂ howner' hastat, ?_⟩
  have hr₂0 : r₂ ≠ 0 := by
    intro h
    rw [h] at hr₂a
    exact absurd hr₂a (by norm_num)
  have hfb := submitFeedback_ok a' owner r₂ fb₂ w t₂ howner' hastat hasome
    hr₂0 hr₂a hr₂b
  refine ⟨(checkBadges { w with stats := { w.stats with
      totalRatings := w.stats.totalRatings + 1
      rating := (w.stats.rating * (w.stats.totalRatings : Rat) + r₂)
        / ((w.stats.totalRatings + 1 : Nat) : Rat) } } t₂).1,
    by rw [hfb], by rw [hfb], ?_, ?_⟩
  · rw [checkBadges_stats]
    simp only [hwtr]
  · rw [checkBadges_stats]
    simp only
    rw [hwtr, hwr]
    have h1 : ((vol.stats.totalRatings + 1 : Nat) : Rat) ≠ 0 := by
      positivity
    push_cast
    rw [div_mul_cancel₀ _ (by push_cast at h1 ⊢; exact h1)]
    ring_nf

/-- C10 (witness): on the concrete responding alert, a resolve with
rating 4 followed by owner feedback with rating 5 yields rating count 2
and an average built from both samples; feedback without a rating is
rejected. -/
theorem double_rating_spec_witness :
    (resolveAlert exAlertResponding exCallerA (some exVolResp)
        ⟨none, none, none⟩ 5000).1 = ApiStatus.ok ∧
    (∃ a' w, resolveAlert exAlertResponding exCallerA (some exVolResp)
        ⟨none, some 4, none⟩ 5000 = (ApiStatus.ok, a', some w) ∧
      w.stats.totalRatings = exVolResp.stats.totalRatings + 1 ∧
      submitFeedback a' exOwner none none (some w) 6000
        = (ApiStatus.badRequest, a', some w) ∧
      ∃ w₂, (submitFeedback a' exOwner (some 5) none (some w) 6000).1
          = ApiStatus.ok ∧
        (submitFeedback a' exOwner (some 5) none (some w) 6000).2.2 = some w₂ ∧
        w₂.stats.totalRatings = exVolResp.stats.totalRatings + 2 ∧
        w₂.stats.rating
          = (exVolResp.stats.rating * (exVolResp.stats.totalRatings : Rat) + 4 + 5)
            / ((exVolResp.stats.totalRatings : Rat) + 2)) :=
  double_rating_spec exAlertResponding exOwner exCallerA exVolResp
    ⟨11, 1000, some 100⟩ 4 5 none none none 5000 6000 rfl rfl rfl
    (by norm_num) (by norm_num) (by norm_num)

end SafeHer

